import Mathlib

/-!  Shallow embedding of the monitoring / rollback decision core of
`scripts/model_monitoring.py` and the training loop of `scripts/train.py`.

Python floats are embedded as rationals (`ℚ`); every computation the claims
touch is a finite combination of field operations and comparisons, where
float and exact arithmetic agree at the concrete inputs used below.
Wall-clock timestamps, Prometheus gauge updates and log statements are pure
I/O with no influence on any returned value; they are omitted.  Calls into
external libraries that are not part of this repository (scipy's
`ks_2samp`, numpy's `log`) are taken as explicit function parameters.
Fallible Python code is embedded in `Except String`. -/

namespace MLOps

/-- A metric dictionary (`Dict[str, float]`) as passed around
`model_monitoring.py`: each of the five metric keys used by the module may be
present or absent; lookups in the source use `.get` with default `0` or
membership tests. -/
structure Metrics where
  accuracy : Option ℚ
  precisionScore : Option ℚ
  recallScore : Option ℚ
  f1Score : Option ℚ
  rocAuc : Option ℚ
deriving Repr, DecidableEq

/-- Dictionary lookup `m[name]` / `name in m` for the five metric keys the
module iterates over. -/
def Metrics.get (m : Metrics) : String → Option ℚ
  | "accuracy" => m.accuracy
  | "precision" => m.precisionScore
  | "recall" => m.recallScore
  | "f1_score" => m.f1Score
  | "roc_auc" => m.rocAuc
  | _ => none

/-- The default value of the `threshold` parameter of
`ModelPerformanceMonitor.check_performance_degradation` (0.05). -/
def defaultDegradationThreshold : ℚ := 5 / 100

/-- `ModelPerformanceMonitor.check_performance_degradation` (lines 159-182):
reads `roc_auc` from both dictionaries with default 0, computes
`degradation_percentage = (baseline - current) / baseline` when
`baseline > 0` and 0 otherwise, and returns whether it exceeds `threshold`. -/
def checkPerformanceDegradation (currentPerformance baselinePerformance : Metrics)
    (threshold : ℚ) : Bool :=
  let currentScore := (currentPerformance.get "roc_auc").getD 0
  let baselineScore := (baselinePerformance.get "roc_auc").getD 0
  let degradation := baselineScore - currentScore
  let degradationPercentage := if baselineScore > 0 then degradation / baselineScore else 0
  degradationPercentage > threshold

/-- One row of `results['comparison']` built by `ABTestManager.analyze_ab_test`
for a metric present in both inputs. -/
structure MetricComparison where
  modelAScore : ℚ
  modelBScore : ℚ
  difference : ℚ
  improvementPercentage : ℚ
  modelBBetter : Bool
deriving Repr, DecidableEq

/-- The per-metric comparison computed at lines 229-238 of
`model_monitoring.py`. -/
def compareMetric (aScore bScore : ℚ) : MetricComparison :=
  let difference := bScore - aScore
  let improvementPercentage := if aScore > 0 then difference / aScore * 100 else 0
  ⟨aScore, bScore, difference, improvementPercentage, decide (bScore > aScore)⟩

/-- The fixed metric list iterated at line 223 (`roc_auc` last). -/
def abMetricNames : List String :=
  ["accuracy", "precision", "recall", "f1_score", "roc_auc"]

/-- The `results['comparison']` association list: one entry per metric name
present in both inputs, in iteration order. -/
def buildComparison (ma mb : Metrics) : List String → List (String × MetricComparison)
  | [] => []
  | name :: rest =>
    match ma.get name, mb.get name with
    | some a, some b => (name, compareMetric a b) :: buildComparison ma mb rest
    | _, _ => buildComparison ma mb rest

/-- The value returned by `ABTestManager.analyze_ab_test` (timestamp omitted). -/
structure ABTestAnalysis where
  modelAMetrics : Metrics
  modelBMetrics : Metrics
  comparison : List (String × MetricComparison)
  recommendation : Option String
deriving Repr, DecidableEq

/-- `ABTestManager.analyze_ab_test` (lines 210-257): builds the per-metric
comparison table, then derives the recommendation from the `roc_auc` row
alone; the recommendation stays `None` when `roc_auc` is missing from either
input.  The `confidence_level` parameter is unused by the source body. -/
def analyzeAbTest (ma mb : Metrics) : ABTestAnalysis :=
  let comparison := buildComparison ma mb abMetricNames
  let recommendation :=
    match comparison.lookup "roc_auc" with
    | none => none
    | some pc =>
      if pc.modelBBetter && decide (pc.improvementPercentage > 2) then
        some "deploy_model_b"
      else if decide (pc.improvementPercentage < -5) then
        some "rollback_to_model_a"
      else
        some "continue_testing"
  ⟨ma, mb, comparison, recommendation⟩

/-- `ABTestManager.should_trigger_rollback` (lines 259-262). -/
def shouldTriggerRollback (abTestResults : ABTestAnalysis) : Bool :=
  abTestResults.recommendation == some "rollback_to_model_a"

/-- The `monitoring` section of the configuration dictionary, as consumed by
`AutomatedRollbackManager.check_rollback_conditions`. -/
structure MonitoringConfig where
  performanceThreshold : ℚ
deriving Repr, DecidableEq

/-- The configuration surface `check_rollback_conditions` reads. -/
structure Config where
  monitoring : MonitoringConfig
deriving Repr, DecidableEq

/-- The rollback decision record (timestamp omitted). -/
structure RollbackDecision where
  shouldRollback : Bool
  reasons : List String
  performanceCheck : Bool
  abTestCheck : Bool
deriving Repr, DecidableEq

/-- `AutomatedRollbackManager.check_rollback_conditions` (lines 272-305).
Line 286 reads `config['monitoring']['performance_threshold']` into a local
variable, but line 288 calls `check_performance_degradation` without passing
it, so the call uses the default threshold 0.05; the local is dead, and it is
kept here exactly as in the source. -/
def checkRollbackConditions (config : Config) (currentPerformance baselinePerformance : Metrics)
    (abTestResults : Option ABTestAnalysis) : RollbackDecision :=
  let _threshold := config.monitoring.performanceThreshold
  let performanceCheck :=
    checkPerformanceDegradation currentPerformance baselinePerformance
      defaultDegradationThreshold
  let reasonsAfterPerf :=
    if performanceCheck then ["Performance degradation detected"] else []
  let abTestCheck :=
    match abTestResults with
    | none => false
    | some r => shouldTriggerRollback r
  let reasons :=
    if abTestCheck then
      reasonsAfterPerf ++ ["A/B test indicates model B is significantly worse"]
    else reasonsAfterPerf
  ⟨performanceCheck || abTestCheck, reasons, performanceCheck, abTestCheck⟩

/-- One entry of `rollback_history` (timestamp omitted). -/
structure RollbackInfo where
  reason : String
  previousModelS3Path : String
  rollbackExecutedBy : String
deriving Repr, DecidableEq

/-- The mutable state of an `AutomatedRollbackManager`: its history list and
the Prometheus rollback counter. -/
structure RollbackManagerState where
  rollbackHistory : List RollbackInfo
  rollbackCounter : ℕ
deriving Repr, DecidableEq

/-- `AutomatedRollbackManager.__init__`: empty history; the process counter
starts at 0. -/
def initRollbackManager : RollbackManagerState := ⟨[], 0⟩

/-- `AutomatedRollbackManager.execute_rollback` (lines 307-331).  The S3
copy of the previous model over the production pointer is delegated to boto3;
its outcome enters as `copyOutcome`.  On success the history entry is
appended, the counter incremented and `True` returned; any exception from the
copy is caught by the `try`/`except`, logged, and `False` returned with the
state untouched. -/
def executeRollback (copyOutcome : Except String Unit) (st : RollbackManagerState)
    (previousModelS3Path reason : String) : Bool × RollbackManagerState :=
  match copyOutcome with
  | .error _ => (false, st)
  | .ok _ =>
    let info : RollbackInfo := ⟨reason, previousModelS3Path, "automated_system"⟩
    (true, ⟨st.rollbackHistory ++ [info], st.rollbackCounter + 1⟩)

/-- Whether an `Except` computation succeeded (Python: the body ran without
raising). -/
def exOk {ε α : Type} : Except ε α → Bool
  | .ok _ => true
  | .error _ => false

/-- Column `i` of a 2-d array, `data[:, i]`: numpy raises an `IndexError`
when the column index is out of bounds. -/
def getColumn (data : List (List ℚ)) (i : ℕ) : Except String (List ℚ) :=
  if data.all (fun row => decide (i < row.length)) then
    .ok (data.map (fun row => row.getD i 0))
  else
    .error "IndexError: index out of bounds for axis 1"

/-- `np.min`: raises a `ValueError` on an empty (zero-row) column. -/
def npMin : List ℚ → Except String ℚ
  | [] => .error "ValueError: zero-size array to reduction operation minimum"
  | x :: xs => .ok (xs.foldl min x)

/-- `np.max`: raises a `ValueError` on an empty (zero-row) column. -/
def npMax : List ℚ → Except String ℚ
  | [] => .error "ValueError: zero-size array to reduction operation maximum"
  | x :: xs => .ok (xs.foldl max x)

/-- Insertion step of an ascending sort (per-column sorting used by the
percentile computation). -/
def insertSorted (x : ℚ) : List ℚ → List ℚ
  | [] => [x]
  | y :: ys => if x ≤ y then x :: y :: ys else y :: insertSorted x ys

/-- Ascending sort of a column. -/
def sortAsc (xs : List ℚ) : List ℚ := xs.foldr insertSorted []

/-- `np.percentile(xs, q)` with numpy's default linear interpolation:
the value at fractional position `q·(n−1)/100` of the sorted data. -/
def percentile (xs : List ℚ) (q : ℚ) : ℚ :=
  let s := sortAsc xs
  let n := s.length
  let pos := q * ((n : ℚ) - 1) / 100
  let i := (⌊pos⌋).toNat
  let frac := pos - (⌊pos⌋ : ℚ)
  let lo := s.getD i 0
  let hi := s.getD (i + 1) lo
  lo + frac * (hi - lo)

/-- The per-feature reference statistics record built by
`DataDriftDetector._calculate_reference_stats`.  numpy's `std` is the square
root of `stdSq`; the root is irrational in general, so the embedding carries
its square (no claim reads the value). -/
structure FeatureStats where
  mean : ℚ
  stdSq : ℚ
  statMin : ℚ
  statMax : ℚ
  median : ℚ
  q25 : ℚ
  q75 : ℚ
deriving Repr, DecidableEq

/-- The statistics dictionary entry for one feature column (lines 54-63):
`np.mean`, `np.std`, `np.min`, `np.max`, `np.median`, `np.percentile 25/75`.
On a zero-row column `np.min` raises, which aborts the construction. -/
def featureStats (xs : List ℚ) : Except String FeatureStats := do
  let n : ℚ := (xs.length : ℚ)
  let mean := xs.sum / n
  let stdSq := (xs.map (fun x => (x - mean) ^ 2)).sum / n
  let mn ← npMin xs
  let mx ← npMax xs
  .ok ⟨mean, stdSq, mn, mx, percentile xs 50, percentile xs 25, percentile xs 75⟩

/-- The state a constructed `DataDriftDetector` holds. -/
structure DataDriftDetector where
  referenceData : List (List ℚ)
  featureNames : List String
  referenceStats : List (String × FeatureStats)
deriving Repr, DecidableEq

/-- The loop of `_calculate_reference_stats` (lines 50-64): one statistics
entry per feature name, reading column `i` of the reference matrix for the
`i`-th name. -/
def calculateReferenceStats (data : List (List ℚ)) :
    List String → ℕ → Except String (List (String × FeatureStats))
  | [], _ => .ok []
  | f :: rest, i => do
    let col ← getColumn data i
    let st ← featureStats col
    let tail ← calculateReferenceStats data rest (i + 1)
    .ok ((f, st) :: tail)

/-- `DataDriftDetector.__init__` (lines 45-48): stores the arguments and
computes the reference statistics.  The body performs no validation of its
own; the only failures are those raised incidentally by numpy inside
`_calculate_reference_stats`. -/
def mkDataDriftDetector (referenceData : List (List ℚ)) (featureNames : List String) :
    Except String DataDriftDetector := do
  let stats ← calculateReferenceStats referenceData featureNames 0
  .ok ⟨referenceData, featureNames, stats⟩

/-- `np.histogram_bin_edges(reference, bins)`: equal-width edges over the
data range; numpy widens a degenerate range `[v, v]` to `[v−0.5, v+0.5]` and
uses `[0, 1]` for empty data. -/
def histogramBinEdges (reference : List ℚ) (bins : ℕ) : List ℚ :=
  let bounds :=
    match reference with
    | [] => ((0 : ℚ), (1 : ℚ))
    | x :: xs =>
      let mn := xs.foldl min x
      let mx := xs.foldl max x
      if mn = mx then (mn - 1 / 2, mx + 1 / 2) else (mn, mx)
  (List.range (bins + 1)).map (fun j => bounds.1 + (bounds.2 - bounds.1) * (j : ℚ) / (bins : ℚ))

/-- `np.histogram(xs, bins=edges)` counts: bin `j` is the half-open interval
`[e_j, e_{j+1})`, except the last bin which is closed on the right; values
outside the edge range are not counted. -/
def histogramCounts (xs : List ℚ) (edges : List ℚ) (bins : ℕ) : List ℕ :=
  (List.range bins).map (fun j =>
    let lo := edges.getD j 0
    let hi := edges.getD (j + 1) 0
    (xs.filter (fun x =>
      decide (lo ≤ x) &&
        (decide (x < hi) || (decide (j = bins - 1) && decide (x ≤ hi))))).length)

/-- The body of `DataDriftDetector._calculate_psi` inside its `try` block
(lines 104-118): reference-derived bin edges, per-bin fractional frequencies
with epsilon `1e-10`, and the PSI sum.  `np.log` enters as the parameter
`logFn` (its exact values never decide a claim).  A zero-length sample makes
the frequency normalisation fail — numpy signals this with a divide warning
and a non-finite result rather than a value; every failed evaluation of the
body is folded into `Except.error`, which the enclosing handler maps to the
default. -/
def psiBody (logFn : ℚ → ℚ) (reference newData : List ℚ) (bins : ℕ) :
    Except String ℚ :=
  let binEdges := histogramBinEdges reference bins
  let refFreq := histogramCounts reference binEdges bins
  let newFreq := histogramCounts newData binEdges bins
  if reference.length = 0 ∨ newData.length = 0 then
    .error "StatisticalComputationError: zero-length sample in PSI normalisation"
  else
    let eps : ℚ := 1 / 10 ^ 10
    let refPct := refFreq.map (fun c => (c : ℚ) / (reference.length : ℚ) + eps)
    let newPct := newFreq.map (fun c => (c : ℚ) / (newData.length : ℚ) + eps)
    .ok (List.zipWith (fun n r => (n - r) * logFn (n / r)) newPct refPct).sum

/-- `DataDriftDetector._calculate_psi` (lines 102-122): the `try`/`except`
wrapper around `psiBody` — any failure is caught, logged, and replaced by the
default value `0.0`. -/
def calculatePsi (logFn : ℚ → ℚ) (reference newData : List ℚ) : ℚ :=
  match psiBody logFn reference newData 10 with
  | .ok v => v
  | .error _ => 0

/-- The `new_stats` sub-record of a drift result (lines 89-94). -/
structure NewStats where
  mean : ℚ
  stdSq : ℚ
  statMin : ℚ
  statMax : ℚ
deriving Repr, DecidableEq

/-- The `new_stats` computation: `np.mean/std/min/max` of the new column;
`np.min` raises on a zero-row column. -/
def newFeatureStats (xs : List ℚ) : Except String NewStats := do
  let n : ℚ := (xs.length : ℚ)
  let mean := xs.sum / n
  let stdSq := (xs.map (fun x => (x - mean) ^ 2)).sum / n
  let mn ← npMin xs
  let mx ← npMax xs
  .ok ⟨mean, stdSq, mn, mx⟩

/-- One feature's entry in the dictionary returned by `detect_drift`. -/
structure DriftResult where
  ksStatistic : ℚ
  pValue : ℚ
  psiScore : ℚ
  driftDetected : Bool
  referenceStats : FeatureStats
  newStats : NewStats
deriving Repr, DecidableEq

/-- The per-feature body of the `detect_drift` loop (lines 70-95):
`ks_2samp` (entering as the parameter `ks`, returning the pair
`(statistic, p_value)`), the PSI of the same column pair, and the flag
`drift_detected = p_value < threshold or psi_score > 0.1`. -/
def driftForFeature (ks : List ℚ → List ℚ → ℚ × ℚ) (logFn : ℚ → ℚ)
    (refStats : FeatureStats) (referenceFeature newFeature : List ℚ)
    (threshold : ℚ) : Except String DriftResult := do
  let ksResult := ks referenceFeature newFeature
  let psiScore := calculatePsi logFn referenceFeature newFeature
  let driftDetected := decide (ksResult.2 < threshold) || decide (psiScore > 1 / 10)
  let ns ← newFeatureStats newFeature
  .ok ⟨ksResult.1, ksResult.2, psiScore, driftDetected, refStats, ns⟩

/-- The `detect_drift` loop over `enumerate(self.feature_names)`, carrying
the running column index. -/
def driftLoop (ks : List ℚ → List ℚ → ℚ × ℚ) (logFn : ℚ → ℚ)
    (det : DataDriftDetector) (newData : List (List ℚ)) (threshold : ℚ) :
    List String → ℕ → Except String (List (String × DriftResult))
  | [], _ => .ok []
  | f :: rest, i => do
    let refCol ← getColumn det.referenceData i
    let newCol ← getColumn newData i
    let rs ← match det.referenceStats.lookup f with
      | some s => Except.ok s
      | none => Except.error "KeyError"
    let r ← driftForFeature ks logFn rs refCol newCol threshold
    let tail ← driftLoop ks logFn det newData threshold rest (i + 1)
    .ok ((f, r) :: tail)

/-- `DataDriftDetector.detect_drift` (lines 66-100). -/
def detectDrift (ks : List ℚ → List ℚ → ℚ × ℚ) (logFn : ℚ → ℚ)
    (det : DataDriftDetector) (newData : List (List ℚ)) (threshold : ℚ) :
    Except String (List (String × DriftResult)) :=
  driftLoop ks logFn det newData threshold det.featureNames 0

/-- The test-set metrics `ModelTrainer.evaluate_model` returns: the four
threshold metrics always, `roc_auc` only when the model exposes
`predict_proba`. -/
structure TestMetrics where
  accuracy : ℚ
  precisionScore : ℚ
  recallScore : ℚ
  f1Score : ℚ
  rocAuc : Option ℚ
deriving Repr, DecidableEq

/-- The selection score of line 249:
`test_metrics['roc_auc'] if 'roc_auc' in test_metrics else test_metrics['f1_score']`. -/
def testScore (m : TestMetrics) : ℚ :=
  match m.rocAuc with
  | some v => v
  | none => m.f1Score

/-- The outcome of the per-candidate work inside the `try` of
`train_models` (hyperparameter tuning, `fit`, evaluation and
cross-validation are external ML library calls): either an exception, or the
test metrics together with the cross-validation scores.  The inner
MLflow-logging `try`/`except` only logs on failure and alters no returned
value. -/
inductive TrainOutcome where
  | failure (msg : String)
  | success (testMetrics : TestMetrics) (cvMetrics : List (String × ℚ))
deriving Repr, DecidableEq

/-- The best-model fields of `ModelTrainer` mutated by `train_models`. -/
structure TrainerState where
  bestScore : ℚ
  bestModelName : Option String
deriving Repr, DecidableEq

/-- `ModelTrainer.__init__` (lines 37-44): `best_score = 0`, no best model. -/
def initTrainerState : TrainerState := ⟨0, none⟩

/-- The candidate loop of `train_models` (lines 201-265): a failing candidate
is caught, logged and skipped; a successful one is added to `results` and
replaces the running best exactly when its score is strictly greater. -/
def trainLoop : List (String × TrainOutcome) → TrainerState →
    List (String × TestMetrics) × TrainerState
  | [], st => ([], st)
  | (_, .failure _) :: rest, st => trainLoop rest st
  | (name, .success m _) :: rest, st =>
    let currentScore := testScore m
    let st' := if currentScore > st.bestScore then ⟨currentScore, some name⟩ else st
    let res := trainLoop rest st'
    ((name, m) :: res.1, res.2)

/-- The value `train_models` returns when it does not raise. -/
structure TrainResult where
  results : List (String × TestMetrics)
  bestModelName : String
  bestScore : ℚ
deriving Repr, DecidableEq

/-- `ModelTrainer.train_models` (lines 196-278) on a fresh trainer: run the
candidate loop, then raise `RuntimeError` when `results` is empty, raise when
no best model was selected, and otherwise return the results with the best
candidate. -/
def trainModels (candidates : List (String × TrainOutcome)) : Except String TrainResult :=
  let out := trainLoop candidates initTrainerState
  if out.1.isEmpty then
    .error "No models were successfully trained. Check the data and configuration."
  else
    match out.2.bestModelName with
    | none => .error "No best model was selected. All models may have failed training."
    | some n => .ok ⟨out.1, n, out.2.bestScore⟩

/-- Concrete detector used to exercise `detectDrift` at a fully evaluated
input: two reference rows, one feature, with its reference statistics. -/
def sampleDetector : DataDriftDetector :=
  ⟨[[0], [1]], ["f"], [("f", ⟨1/2, 1/4, 0, 1, 1/2, 1/4, 3/4⟩)]⟩

/-- The projection `p ↦ (name, test metrics)` of a successful candidate,
`none` for a failed one: the shape of the `results` dictionary built by the
training loop. -/
def successEntry (p : String × TrainOutcome) : Option (String × TestMetrics) :=
  match p.2 with
  | .success m _ => some (p.1, m)
  | .failure _ => none

/-- Lookup of the `roc_auc` key is the `rocAuc` field. -/
theorem Metrics.get_roc_auc (m : Metrics) : m.get "roc_auc" = m.rocAuc := rfl

/-- Lookup of the `accuracy` key is the `accuracy` field. -/
theorem Metrics.get_accuracy (m : Metrics) : m.get "accuracy" = m.accuracy := rfl

/-- Lookup of the `precision` key is the `precisionScore` field. -/
theorem Metrics.get_precision (m : Metrics) : m.get "precision" = m.precisionScore := rfl

/-- Lookup of the `recall` key is the `recallScore` field. -/
theorem Metrics.get_recall (m : Metrics) : m.get "recall" = m.recallScore := rfl

/-- Lookup of the `f1_score` key is the `f1Score` field. -/
theorem Metrics.get_f1 (m : Metrics) : m.get "f1_score" = m.f1Score := rfl

/-- `check_performance_degradation` as a single comparison: the guarded
degradation fraction against the threshold. -/
theorem checkPerformanceDegradation_eq (cur base : Metrics) (t : ℚ) :
    checkPerformanceDegradation cur base t =
      decide ((if (base.get "roc_auc").getD 0 > 0 then
          ((base.get "roc_auc").getD 0 - (cur.get "roc_auc").getD 0) /
            (base.get "roc_auc").getD 0
        else 0) > t) := rfl

/-- C1: for every configuration, every pair of metric dictionaries and every
optional A/B-test result, the decision returned by
`check_rollback_conditions` has `should_rollback` true exactly when at least
one of `performance_check` or `ab_test_check` is true (logical OR). -/
theorem c1_should_rollback_iff_or (config : Config)
    (cur base : Metrics) (ab : Option ABTestAnalysis) :
    (checkRollbackConditions config cur base ab).shouldRollback =
      ((checkRollbackConditions config cur base ab).performanceCheck ||
        (checkRollbackConditions config cur base ab).abTestCheck) := rfl

/-- C3: with the configured monitoring threshold set to 0.5, current
`roc_auc` 0.70 and baseline 0.80 (a 12.5% drop), `check_rollback_conditions`
reports `performance_check = true` — yet `check_performance_degradation`
evaluated at the configured threshold returns `false`.  The source reads the
configured threshold into a local variable at line 286 and then calls
`check_performance_degradation` without passing it, so the hard-coded
default 0.05 decides the check. -/
theorem c3_configured_threshold_ignored :
    (checkRollbackConditions ⟨⟨1/2⟩⟩ ⟨none, none, none, none, some (7/10)⟩
        ⟨none, none, none, none, some (4/5)⟩ none).performanceCheck = true ∧
      checkPerformanceDegradation ⟨none, none, none, none, some (7/10)⟩
        ⟨none, none, none, none, some (4/5)⟩
        ((⟨⟨1/2⟩⟩ : Config).monitoring.performanceThreshold) = false := by
  constructor <;>
    norm_num [checkRollbackConditions, checkPerformanceDegradation,
      defaultDegradationThreshold, Metrics.get_roc_auc]

/-- C4 counterexample: with baseline `roc_auc` 0 and the (admittedly
unusual) threshold −1, `check_performance_degradation` returns `true`,
refuting the claim that it returns `false` whenever the baseline `roc_auc`
is ≤ 0: the degradation fraction is taken as 0 there, and `0 > threshold`
holds for every negative threshold. -/
theorem c4_counterexample_negative_threshold :
    checkPerformanceDegradation ⟨none, none, none, none, some (7/10)⟩
      ⟨none, none, none, none, some 0⟩ (-1) = true := by
  norm_num [checkPerformanceDegradation, Metrics.get_roc_auc]

/-- C4 (amended): `check_performance_degradation` returns true iff
`(baseline − current)/baseline > threshold` when `baseline > 0`; when
`baseline ≤ 0` the degradation fraction is taken as 0, so the result is
true iff `0 > threshold` — in particular false for every threshold ≥ 0.
With baseline 0.80: current 0.70 at threshold 0.05 yields true, and current
0.78 at the default threshold yields false. -/
theorem c4_degradation_characterisation (cur base : Metrics) (threshold : ℚ) :
    (0 < (base.get "roc_auc").getD 0 →
      (checkPerformanceDegradation cur base threshold = true ↔
        ((base.get "roc_auc").getD 0 - (cur.get "roc_auc").getD 0) /
            (base.get "roc_auc").getD 0 > threshold)) ∧
    ((base.get "roc_auc").getD 0 ≤ 0 →
      (checkPerformanceDegradation cur base threshold = true ↔ 0 > threshold)) ∧
    checkPerformanceDegradation ⟨none, none, none, none, some (7/10)⟩
      ⟨none, none, none, none, some (4/5)⟩ (5/100) = true ∧
    checkPerformanceDegradation ⟨none, none, none, none, some (78/100)⟩
      ⟨none, none, none, none, some (4/5)⟩ defaultDegradationThreshold = false := by
  refine ⟨?_, ?_,
    by norm_num [checkPerformanceDegradation, Metrics.get_roc_auc],
    by norm_num [checkPerformanceDegradation, Metrics.get_roc_auc,
      defaultDegradationThreshold]⟩
  · intro hb
    rw [checkPerformanceDegradation_eq, if_pos hb]
    exact decide_eq_true_iff
  · intro hb
    rw [checkPerformanceDegradation_eq, if_neg (not_lt.mpr hb)]
    exact decide_eq_true_iff

/-- C4 witness: the amended characterisation applied at current 0.70,
baseline 0.80, threshold 0.05. -/
theorem c4_degradation_witness :
    checkPerformanceDegradation ⟨none, none, none, none, some (7/10)⟩
      ⟨none, none, none, none, some (4/5)⟩ (5/100) = true :=
  ((c4_degradation_characterisation ⟨none, none, none, none, some (7/10)⟩
      ⟨none, none, none, none, some (4/5)⟩ (5/100)).1
    (by norm_num [Metrics.get_roc_auc])).mpr (by norm_num [Metrics.get_roc_auc])

/-- C8: when the S3 copy of the production pointer fails,
`execute_rollback` returns `False`, the rollback history keeps its length
and the rollback counter keeps its value — the failure is absorbed by the
handler, never re-raised, and the manager state is untouched. -/
theorem c8_storage_failure_no_mutation (e : String) (st : RollbackManagerState)
    (path reason : String) :
    (executeRollback (Except.error e) st path reason).1 = false ∧
    (executeRollback (Except.error e) st path reason).2.rollbackHistory.length =
      st.rollbackHistory.length ∧
    (executeRollback (Except.error e) st path reason).2.rollbackCounter =
      st.rollbackCounter :=
  ⟨rfl, rfl, rfl⟩

/-- C7: `_calculate_psi` is a total function (the embedding's return type is
a plain rational, mirroring that the `try`/`except` lets no exception
escape), and whenever the computation body fails, the default value 0.0 is
returned. -/
theorem c7_psi_failure_returns_default (logFn : ℚ → ℚ)
    (reference newData : List ℚ) (e : String)
    (h : psiBody logFn reference newData 10 = Except.error e) :
    calculatePsi logFn reference newData = 0 := by
  unfold calculatePsi
  rw [h]

/-- C7 witness: the PSI of an empty reference sample against `[1]` fails in
the body and `_calculate_psi` returns 0. -/
theorem c7_psi_failure_witness :
    calculatePsi (fun x => x) [] [1] = 0 :=
  c7_psi_failure_returns_default (fun x => x) [] [1]
    "StatisticalComputationError: zero-length sample in PSI normalisation" rfl

/-- Monadic bind on a successful `Except` computation runs the rest. -/
theorem okBind {ε α β : Type} (a : α) (f : α → Except ε β) :
    (Except.ok a : Except ε α) >>= f = f a := rfl

/-- Monadic bind on a failed `Except` computation short-circuits. -/
theorem errBind {ε α β : Type} (e : ε) (f : α → Except ε β) :
    (Except.error e : Except ε α) >>= f = Except.error e := rfl

/-- Reference statistics of a non-empty column always compute: the only
numpy reductions that can raise, `np.min`/`np.max`, succeed. -/
theorem featureStats_isOk (xs : List ℚ) (h : xs ≠ []) :
    ∃ s, featureStats xs = Except.ok s := by
  match xs, h with
  | x :: rest, _ => exact ⟨_, rfl⟩

/-- The reference-statistics loop succeeds on any matrix with at least one
row whose rows are wide enough for every remaining column index. -/
theorem calculateReferenceStats_isOk (data : List (List ℚ)) (hne : data ≠ []) :
    ∀ (names : List String) (i : ℕ),
      (∀ row ∈ data, i + names.length ≤ row.length) →
      ∃ l, calculateReferenceStats data names i = Except.ok l := by
  intro names
  induction names with
  | nil => exact fun i _ => ⟨[], rfl⟩
  | cons f rest ih =>
    intro i h
    have hcol : getColumn data i = Except.ok (data.map (fun row => row.getD i 0)) := by
      unfold getColumn
      rw [if_pos]
      simp only [List.all_eq_true, decide_eq_true_eq]
      intro row hrow
      have := h row hrow
      simp only [List.length_cons] at this
      omega
    have hcolne : data.map (fun row => row.getD i 0) ≠ [] := by
      simpa using hne
    obtain ⟨s, hs⟩ := featureStats_isOk _ hcolne
    obtain ⟨tail, ht⟩ := ih (i + 1) (by
      intro row hrow
      have := h row hrow
      simp only [List.length_cons] at this
      omega)
    refine ⟨(f, s) :: tail, ?_⟩
    simp only [calculateReferenceStats, hcol, okBind, hs, ht]

/-- C2 counterexample: a reference matrix with one row of two columns
together with a single feature name violates the claimed precondition
(column count ≠ `len(feature_names)`), yet the constructor succeeds — no
`ConfigurationError`, indeed no exception at all, is raised: `__init__`
performs no shape validation. -/
theorem c2_counterexample_mismatched_columns_accepted :
    exOk (mkDataDriftDetector [[1, 2]] ["f1"]) = true := rfl

/-- C2 (amended): `DataDriftDetector.__init__` validates nothing.  Whenever
the reference matrix has at least one row and every row has at least
`len(feature_names)` columns, construction succeeds — even when the column
count differs from `len(feature_names)`.  (A matrix that is too narrow fails
only incidentally, with an `IndexError` raised by numpy while the reference
statistics are computed, and a zero-row matrix with a `ValueError` from
`np.min` — never with a `ConfigurationError`, which nothing in the module
defines or raises.) -/
theorem c2_init_performs_no_validation (data : List (List ℚ)) (names : List String)
    (hne : data ≠ []) (hwide : ∀ row ∈ data, names.length ≤ row.length) :
    exOk (mkDataDriftDetector data names) = true := by
  obtain ⟨l, hl⟩ := calculateReferenceStats_isOk data hne names 0 (by
    intro row hrow
    simpa using hwide row hrow)
  simp only [mkDataDriftDetector, hl, okBind, exOk]

/-- C2 witness: the no-validation theorem applied to a 2×2 matrix with one
feature name (again a column count different from the name count). -/
theorem c2_init_no_validation_witness :
    exOk (mkDataDriftDetector [[1, 2], [3, 4]] ["f1"]) = true :=
  c2_init_performs_no_validation [[1, 2], [3, 4]] ["f1"] (by simp) (by
    intro row hrow
    fin_cases hrow <;> simp)

/-- The `results` dictionary assembled by the candidate loop consists of
exactly the successful candidates, in order, for every starting state. -/
theorem trainLoop_results (cands : List (String × TrainOutcome)) :
    ∀ st : TrainerState, (trainLoop cands st).1 = cands.filterMap successEntry := by
  induction cands with
  | nil => intro st; rfl
  | cons p rest ih =>
    intro st
    obtain ⟨name, o⟩ := p
    cases o with
    | failure msg => simpa [trainLoop, successEntry] using ih st
    | success m cv =>
      simp [trainLoop, successEntry, ih]

/-- If no successful candidate beats the running best score, the best-model
state survives the whole loop unchanged. -/
theorem trainLoop_state_fixed (cands : List (String × TrainOutcome)) :
    ∀ st : TrainerState,
      (∀ p ∈ cands, ∀ m cv, p.2 = TrainOutcome.success m cv →
        ¬ st.bestScore < testScore m) →
      (trainLoop cands st).2 = st := by
  induction cands with
  | nil => intro st _; rfl
  | cons p rest ih =>
    intro st h
    obtain ⟨name, o⟩ := p
    cases o with
    | failure msg =>
      simpa [trainLoop] using ih st (fun q hq => h q (List.mem_cons_of_mem _ hq))
    | success m cv =>
      have hnot : ¬ st.bestScore < testScore m :=
        h (name, TrainOutcome.success m cv) (List.mem_cons_self _ _) m cv rfl
      simp only [trainLoop, gt_iff_lt, if_neg hnot]
      exact ih st (fun q hq => h q (List.mem_cons_of_mem _ hq))

/-- C9 (amended): (1) a candidate whose training raises is caught and the
loop continues — the `results` dictionary holds exactly the successful
candidates; (2) when every candidate fails, `train_models` raises the fatal
"no models were successfully trained" `RuntimeError`; (3) with two
estimators where the first throws during fit and the second succeeds with a
positive selection score, training completes with the second as best model
(a zero selection score instead trips the separate "no best model was
selected" fatal error, see the counterexample). -/
theorem c9_single_failure_is_isolated :
    (∀ (cands : List (String × TrainOutcome)) (st : TrainerState),
      (trainLoop cands st).1 = cands.filterMap successEntry) ∧
    (∀ cands : List (String × TrainOutcome),
      (∀ p ∈ cands, ∃ msg, p.2 = TrainOutcome.failure msg) →
      trainModels cands =
        Except.error "No models were successfully trained. Check the data and configuration.") ∧
    (∀ (name1 msg name2 : String) (m : TestMetrics) (cv : List (String × ℚ)),
      0 < testScore m →
      trainModels [(name1, TrainOutcome.failure msg), (name2, TrainOutcome.success m cv)] =
        Except.ok ⟨[(name2, m)], name2, testScore m⟩) := by
  refine ⟨trainLoop_results, ?_, ?_⟩
  · intro cands hall
    have hres : (trainLoop cands initTrainerState).1 = [] := by
      rw [trainLoop_results]
      rw [List.filterMap_eq_nil_iff]
      intro p hp
      obtain ⟨msg, hm⟩ := hall p hp
      simp [successEntry, hm]
    simp [trainModels, hres]
  · intro name1 msg name2 m cv hpos
    have hstep : trainLoop [(name1, TrainOutcome.failure msg), (name2, TrainOutcome.success m cv)]
        initTrainerState = ([(name2, m)], ⟨testScore m, some name2⟩) := by
      simp only [trainLoop, initTrainerState, gt_iff_lt, if_pos hpos]
    simp [trainModels, hstep]

/-- C9 witness: the amended theorem applied to a failing first estimator and
a second one with `roc_auc` 0.5. -/
theorem c9_single_failure_witness :
    trainModels [("model_a", TrainOutcome.failure "fit raised"),
        ("model_b", TrainOutcome.success ⟨1, 1, 1, 1, some (1/2)⟩ [])] =
      Except.ok ⟨[("model_b", ⟨1, 1, 1, 1, some (1/2)⟩)], "model_b",
        testScore ⟨1, 1, 1, 1, some (1/2)⟩⟩ :=
  c9_single_failure_is_isolated.2.2 "model_a" "fit raised" "model_b"
    ⟨1, 1, 1, 1, some (1/2)⟩ [] (by norm_num [testScore])

/-- C9 counterexample: the unqualified claim fails when the surviving
candidate's selection score is exactly 0 (here `roc_auc` 0.0, which the
strict `>` comparison against the initial best score 0 never beats):
`train_models` raises the "no best model was selected" `RuntimeError`
instead of completing with the second estimator as best model. -/
theorem c9_counterexample_zero_score :
    trainModels [("model_a", TrainOutcome.failure "fit raised"),
        ("model_b", TrainOutcome.success ⟨1, 1, 1, 0, some 0⟩ [])] =
      Except.error "No best model was selected. All models may have failed training." := by
  have hstep : trainLoop [("model_a", TrainOutcome.failure "fit raised"),
      ("model_b", TrainOutcome.success ⟨1, 1, 1, 0, some 0⟩ [])] initTrainerState =
      ([("model_b", ⟨1, 1, 1, 0, some 0⟩)], initTrainerState) := by
    simp only [trainLoop, initTrainerState, gt_iff_lt, testScore]
    norm_num
  simp only [trainModels]
  rw [hstep]
  rfl

/-- C10: when at least one candidate trained successfully but every
successful candidate has selection score exactly 0 (e.g. `roc_auc` absent
and the F1 fallback equal to 0.0), the strict `>` comparison against the
initial best score 0 never selects a best model, and `train_models` raises
the fatal "no best model was selected" `RuntimeError` even though `results`
is non-empty. -/
theorem c10_all_zero_scores_trip_no_best_model
    (cands : List (String × TrainOutcome))
    (hsucc : ∃ p ∈ cands, ∃ m cv, p.2 = TrainOutcome.success m cv)
    (hzero : ∀ p ∈ cands, ∀ m cv, p.2 = TrainOutcome.success m cv → testScore m = 0) :
    trainModels cands =
      Except.error "No best model was selected. All models may have failed training." := by
  have hst : (trainLoop cands initTrainerState).2 = initTrainerState := by
    apply trainLoop_state_fixed
    intro p hp m cv hm
    rw [hzero p hp m cv hm]
    simp [initTrainerState]
  have hmem : ∃ q, q ∈ (trainLoop cands initTrainerState).1 := by
    obtain ⟨p, hp, m, cv, hm⟩ := hsucc
    refine ⟨(p.1, m), ?_⟩
    rw [trainLoop_results]
    exact List.mem_filterMap.mpr ⟨p, hp, by simp [successEntry, hm]⟩
  obtain ⟨q, hq⟩ := hmem
  have hne : (trainLoop cands initTrainerState).1.isEmpty = false := by
    rcases hval : (trainLoop cands initTrainerState).1 with _ | _
    · rw [hval] at hq; cases hq
    · rfl
  simp only [trainModels]
  rw [hne, hst]
  rfl

/-- C10 witness: one candidate, successful, with `roc_auc` unavailable and
F1 score 0.0 — its selection score is the F1 fallback 0, and `train_models`
raises the "no best model" error despite `results` being non-empty. -/
theorem c10_zero_score_witness :
    trainModels [("model_a", TrainOutcome.success ⟨0, 0, 0, 0, none⟩ [])] =
      Except.error "No best model was selected. All models may have failed training." :=
  c10_all_zero_scores_trip_no_best_model _
    ⟨("model_a", TrainOutcome.success ⟨0, 0, 0, 0, none⟩ []), by simp, ⟨0, 0, 0, 0, none⟩, [], rfl⟩
    (by
      intro p hp m cv hm
      simp only [List.mem_singleton] at hp
      subst hp
      cases hm
      rfl)

/-- Looking up the `roc_auc` row of the comparison table built over a name
list ending in `roc_auc`: present exactly when both inputs carry `roc_auc`,
and then equal to the comparison of the two scores. -/
theorem lookup_buildComparison (ma mb : Metrics) :
    ∀ names : List String, "roc_auc" ∉ names →
      (buildComparison ma mb (names ++ ["roc_auc"])).lookup "roc_auc" =
        (match ma.rocAuc, mb.rocAuc with
          | some a, some b => some (compareMetric a b)
          | _, _ => none) := by
  intro names hn
  induction names with
  | nil =>
    cases ha : ma.rocAuc <;> cases hb : mb.rocAuc <;>
      simp [buildComparison, Metrics.get_roc_auc, ha, hb, List.lookup]
  | cons n rest ih =>
    have hne : ¬ ("roc_auc" = n) := fun hcon => hn (by simp [hcon])
    have hrest : "roc_auc" ∉ rest := fun hmem => hn (List.mem_cons_of_mem _ hmem)
    have hbeq : ("roc_auc" == n) = false := beq_eq_false_iff_ne.mpr hne
    cases hga : ma.get n <;> cases hgb : mb.get n <;>
      simp [buildComparison, hga, hgb, List.lookup, hbeq, ih hrest]

/-- C5: whenever both metric dictionaries contain `roc_auc` and model A's
value is positive, the A/B recommendation is decided by the `roc_auc` row
alone: `deploy_model_b` iff B beats A and the improvement percentage
`100·(b−a)/a` exceeds 2.0, `rollback_to_model_a` iff it is below −5.0, and
`continue_testing` in every other case — the +2.0/−5.0 asymmetry exactly as
coded. -/
theorem c5_recommendation_characterisation (ma mb : Metrics) (a b : ℚ)
    (ha : ma.rocAuc = some a) (hb : mb.rocAuc = some b) (hpos : 0 < a) :
    ((analyzeAbTest ma mb).recommendation = some "deploy_model_b" ↔
      a < b ∧ 2 < 100 * (b - a) / a) ∧
    ((analyzeAbTest ma mb).recommendation = some "rollback_to_model_a" ↔
      100 * (b - a) / a < -5) ∧
    ((analyzeAbTest ma mb).recommendation = some "continue_testing" ↔
      ¬ (a < b ∧ 2 < 100 * (b - a) / a) ∧ ¬ (100 * (b - a) / a < -5)) := by
  have hlk : (buildComparison ma mb abMetricNames).lookup "roc_auc" =
      some (compareMetric a b) := by
    have h := lookup_buildComparison ma mb
      ["accuracy", "precision", "recall", "f1_score"] (by decide)
    rw [ha, hb] at h
    exact h
  have hrec : (analyzeAbTest ma mb).recommendation =
      (if (compareMetric a b).modelBBetter &&
          decide ((compareMetric a b).improvementPercentage > 2) then
        some "deploy_model_b"
      else if decide ((compareMetric a b).improvementPercentage < -5) then
        some "rollback_to_model_a"
      else
        some "continue_testing") := by
    simp only [analyzeAbTest]
    rw [hlk]
  have hbb : (compareMetric a b).modelBBetter = decide (b > a) := rfl
  have himp : (compareMetric a b).improvementPercentage = (b - a) / a * 100 := by
    simp [compareMetric, if_pos hpos]
  have hpeq : 100 * (b - a) / a = (b - a) / a * 100 := by ring
  rw [hrec, hbb, himp, hpeq]
  by_cases h1 : a < b <;> by_cases h2 : 2 < (b - a) / a * 100 <;>
    by_cases h3 : (b - a) / a * 100 < -5
  · exact absurd h3 (by linarith)
  · simp [h1, h2, h3]
  · have hgt : 0 < (b - a) / a * 100 :=
      mul_pos (div_pos (sub_pos.mpr h1) hpos) (by norm_num)
    exact absurd h3 (by linarith)
  · simp [h1, h2, h3]
  · have hle : (b - a) / a * 100 ≤ 0 := by
      have : (b - a) / a ≤ 0 :=
        div_nonpos_iff.mpr (Or.inr ⟨sub_nonpos.mpr (not_lt.mp h1), hpos.le⟩)
      nlinarith
    exact absurd h2 (by linarith)
  · have hle : (b - a) / a * 100 ≤ 0 := by
      have : (b - a) / a ≤ 0 :=
        div_nonpos_iff.mpr (Or.inr ⟨sub_nonpos.mpr (not_lt.mp h1), hpos.le⟩)
      nlinarith
    exact absurd h2 (by linarith)
  · simp [h1, h2, h3]
  · simp [h1, h2, h3]

/-- C5 witness: the characterisation applied at the spec's example
(`roc_auc` 0.80 vs 0.83, a 3.75% improvement): `deploy_model_b`. -/
theorem c5_recommendation_witness :
    (analyzeAbTest ⟨none, none, none, none, some (4/5)⟩
        ⟨none, none, none, none, some (83/100)⟩).recommendation =
      some "deploy_model_b" :=
  ((c5_recommendation_characterisation _ _ (4/5) (83/100) rfl rfl
      (by norm_num)).1).mpr (by norm_num)

/-- A successful per-feature drift computation records the p-value of the
KS test of the column pair, the PSI of the same pair, and the flag as the
disjunction of the two signals. -/
theorem driftForFeature_spec (ks : List ℚ → List ℚ → ℚ × ℚ) (logFn : ℚ → ℚ)
    (rs : FeatureStats) (rc nc : List ℚ) (thr : ℚ) (r : DriftResult)
    (h : driftForFeature ks logFn rs rc nc thr = Except.ok r) :
    r.pValue = (ks rc nc).2 ∧ r.psiScore = calculatePsi logFn rc nc ∧
    r.driftDetected =
      (decide (r.pValue < thr) || decide (r.psiScore > 1 / 10)) := by
  cases hns : newFeatureStats nc with
  | error e =>
    simp only [driftForFeature, hns, errBind] at h
    cases h
  | ok ns =>
    simp only [driftForFeature, hns, okBind, Except.ok.injEq] at h
    subst h
    exact ⟨rfl, rfl, rfl⟩

/-- The drift loop over the feature names starting at column `k`: on
success it returns one entry per name, and entry `i` is computed from the
reference and new columns at index `k + i`, with the drift flag the
disjunction of the p-value and PSI signals. -/
theorem driftLoop_spec (ks : List ℚ → List ℚ → ℚ × ℚ) (logFn : ℚ → ℚ)
    (det : DataDriftDetector) (newData : List (List ℚ)) (thr : ℚ) :
    ∀ (names : List String) (k : ℕ) (out : List (String × DriftResult)),
      driftLoop ks logFn det newData thr names k = Except.ok out →
      out.length = names.length ∧
      ∀ i (hi : i < out.length), ∃ refCol newCol,
        getColumn det.referenceData (k + i) = Except.ok refCol ∧
        getColumn newData (k + i) = Except.ok newCol ∧
        (out.get ⟨i, hi⟩).2.pValue = (ks refCol newCol).2 ∧
        (out.get ⟨i, hi⟩).2.psiScore = calculatePsi logFn refCol newCol ∧
        (out.get ⟨i, hi⟩).2.driftDetected =
          (decide ((out.get ⟨i, hi⟩).2.pValue < thr) ||
            decide ((out.get ⟨i, hi⟩).2.psiScore > 1 / 10)) := by
  intro names
  induction names with
  | nil =>
    intro k out h
    simp only [driftLoop, Except.ok.injEq] at h
    subst h
    exact ⟨rfl, fun i hi => absurd hi (by simp)⟩
  | cons f rest ih =>
    intro k out h
    cases hrc : getColumn det.referenceData k with
    | error e => simp only [driftLoop, hrc, errBind] at h; cases h
    | ok rc =>
    cases hnc : getColumn newData k with
    | error e => simp only [driftLoop, hrc, hnc, okBind, errBind] at h; cases h
    | ok nc =>
    cases hlu : det.referenceStats.lookup f with
    | none => simp only [driftLoop, hrc, hnc, hlu, okBind, errBind] at h; cases h
    | some rs =>
    cases hdf : driftForFeature ks logFn rs rc nc thr with
    | error e => simp only [driftLoop, hrc, hnc, hlu, okBind, errBind, hdf] at h; cases h
    | ok r =>
    cases hrest : driftLoop ks logFn det newData thr rest (k + 1) with
    | error e =>
      simp only [driftLoop, hrc, hnc, hlu, okBind, errBind, hdf, hrest] at h; cases h
    | ok tail =>
    simp only [driftLoop, hrc, hnc, hlu, okBind, hdf, hrest, Except.ok.injEq] at h
    subst h
    obtain ⟨hlen, hind⟩ := ih (k + 1) tail hrest
    refine ⟨by simp [hlen], ?_⟩
    intro i hi
    cases i with
    | zero =>
      refine ⟨rc, nc, ?_, ?_, ?_⟩
      · rw [Nat.add_zero]; exact hrc
      · rw [Nat.add_zero]; exact hnc
      · exact driftForFeature_spec ks logFn rs rc nc thr r hdf
    | succ j =>
      have hj : j < tail.length := by
        simp only [List.length_cons] at hi
        omega
      obtain ⟨rc', nc', h1, h2, h3, h4, h5⟩ := hind j hj
      refine ⟨rc', nc', ?_, ?_, ?_, ?_, ?_⟩
      · rw [show k + (j + 1) = k + 1 + j by omega]; exact h1
      · rw [show k + (j + 1) = k + 1 + j by omega]; exact h2
      · simpa using h3
      · simpa using h4
      · simpa using h5

/-- C6: whenever `detect_drift` returns a report, it carries one entry per
feature name, and the entry for feature column `i` has its `p_value` taken
from the KS test of reference column `i` against new column `i`, its
`psi_score` the PSI of the same pair, and its `drift_detected` flag equal to
`(p_value < threshold) OR (psi_score > 0.1)` — a disjunction, never a
conjunction. -/
theorem c6_drift_flag_is_disjunction (ks : List ℚ → List ℚ → ℚ × ℚ)
    (logFn : ℚ → ℚ) (det : DataDriftDetector) (newData : List (List ℚ))
    (thr : ℚ) (out : List (String × DriftResult))
    (h : detectDrift ks logFn det newData thr = Except.ok out) :
    out.length = det.featureNames.length ∧
    ∀ i (hi : i < out.length), ∃ refCol newCol,
      getColumn det.referenceData i = Except.ok refCol ∧
      getColumn newData i = Except.ok newCol ∧
      (out.get ⟨i, hi⟩).2.pValue = (ks refCol newCol).2 ∧
      (out.get ⟨i, hi⟩).2.psiScore = calculatePsi logFn refCol newCol ∧
      (out.get ⟨i, hi⟩).2.driftDetected =
        (decide ((out.get ⟨i, hi⟩).2.pValue < thr) ||
          decide ((out.get ⟨i, hi⟩).2.psiScore > 1 / 10)) := by
  obtain ⟨h1, h2⟩ := driftLoop_spec ks logFn det newData thr det.featureNames 0 out h
  refine ⟨h1, ?_⟩
  intro i hi
  obtain ⟨rc, nc, ha, hb, hc, hd, he⟩ := h2 i hi
  rw [Nat.zero_add] at ha hb
  exact ⟨rc, nc, ha, hb, hc, hd, he⟩

/-- Summing a zipped list whose combining function is constantly zero gives
zero. -/
theorem zipWith_zero_sum : ∀ (l1 l2 : List ℚ),
    (List.zipWith (fun _ _ => (0 : ℚ)) l1 l2).sum = 0
  | [], _ => rfl
  | _ :: _, [] => rfl
  | a :: l1, b :: l2 => by
    simp only [List.zipWith, List.sum_cons, zipWith_zero_sum l1 l2, add_zero]

/-- The PSI of the sample column pair under the everywhere-zero log stand-in
evaluates to 0 (every summand carries a factor `log = 0`). -/
theorem samplePsi_eq : calculatePsi (fun _ => (0 : ℚ)) [0, 1] [0, 1] = 0 := by
  unfold calculatePsi psiBody
  rw [if_neg (by norm_num)]
  simp only [mul_zero]
  exact zipWith_zero_sum _ _

/-- The `new_stats` record of the sample column. -/
theorem sampleNewStats_eq : newFeatureStats [0, 1] = Except.ok ⟨1/2, 1/4, 0, 1⟩ := by
  norm_num [newFeatureStats, npMin, npMax, min_def, max_def, okBind]

/-- Column 0 of the sample matrix. -/
theorem sampleColumn_eq : getColumn [[(0 : ℚ)], [1]] 0 = Except.ok [0, 1] := by
  simp [getColumn]

/-- The sample per-feature drift result: p-value 0.01 below the threshold
0.05, PSI 0, flag raised by the p-value signal alone. -/
theorem sampleDrift_eq : driftForFeature (fun _ _ => ((1:ℚ)/2, (1:ℚ)/100))
    (fun _ => (0 : ℚ)) ⟨1/2, 1/4, 0, 1, 1/2, 1/4, 3/4⟩ [0, 1] [0, 1] (5/100) =
    Except.ok ⟨1/2, 1/100, 0, true, ⟨1/2, 1/4, 0, 1, 1/2, 1/4, 3/4⟩, ⟨1/2, 1/4, 0, 1⟩⟩ := by
  have hdec1 : decide ((1:ℚ)/100 < 5/100) = true := decide_eq_true (by norm_num)
  have hdec2 : decide ((0:ℚ) > 1/10) = false := decide_eq_false (by norm_num)
  simp only [driftForFeature, sampleNewStats_eq, okBind, samplePsi_eq, hdec1, hdec2,
    Bool.true_or, Bool.or_false]

/-- `detect_drift` on the sample detector returns the single-feature report. -/
theorem sampleDetect_eq : detectDrift (fun _ _ => ((1:ℚ)/2, (1:ℚ)/100))
    (fun _ => (0 : ℚ)) sampleDetector [[0], [1]] (5/100) =
    Except.ok [("f", ⟨1/2, 1/100, 0, true, ⟨1/2, 1/4, 0, 1, 1/2, 1/4, 3/4⟩,
      ⟨1/2, 1/4, 0, 1⟩⟩)] := by
  simp only [detectDrift, sampleDetector, driftLoop, sampleColumn_eq, okBind,
    List.lookup, beq_self_eq_true, sampleDrift_eq]

/-- C6 witness: the disjunction theorem applied to the sample detector run,
whose report exists and has one entry per feature. -/
theorem c6_drift_flag_witness :
    (detectDrift (fun _ _ => ((1:ℚ)/2, (1:ℚ)/100)) (fun _ => (0 : ℚ))
        sampleDetector [[0], [1]] (5/100)).map List.length =
      Except.ok sampleDetector.featureNames.length := by
  have h1 := (c6_drift_flag_is_disjunction (fun _ _ => ((1:ℚ)/2, (1:ℚ)/100))
    (fun _ => (0 : ℚ)) sampleDetector [[0], [1]] (5/100) _ sampleDetect_eq).1
  rw [sampleDetect_eq, ← h1]
  rfl

end MLOps
